import Mathlib

/-!
# Verification of the `system_monitor` sampling pipeline

A shallow embedding of `src/monitor.py` (the sampling, smoothing, buffering
and batched-persistence loop) and of the query-side time filter of
`src/analyzer.py`, together with theorems settling the spec's claims.

Numeric conventions: Python floats are modelled as rationals, the cumulative
disk byte counters (Python ints) as integers, and Python's `round(x, 2)` as
`round2` below.  Fallible calls (OS probes raising, SQLite statements
failing) are driven by explicit oracles and surface as `Except` errors /
error options, mirroring uncaught Python exceptions.
-/

section SystemMonitorVerification

attribute [local semireducible] Rat.add Rat.mul Rat.sub Rat.inv

/-- Python's `round(x, 2)`: the value rounded to two decimal places. -/
def round2 (q : ℚ) : ℚ := (round (q * 100) : ℤ) / 100

/-- `BUFFER_SIZE` from `src/monitor.py`: records buffered before a database write. -/
def BUFFER_SIZE : ℕ := 60

/-- `cpu_avg_num` from `run_metrics` in `src/monitor.py` (the spec's `CPU_AVG_WINDOW`). -/
def cpu_avg_num : ℕ := 8

/-- `collect_cpu_metrics` from `src/monitor.py`.  The probe reading
`psutil.cpu_percent(interval=1)` is passed in as `cpu_percent`; the Python
function mutates the list in place, so the embedding returns the updated
window together with the rounded average it returns. -/
def collect_cpu_metrics (cpu_percentages : List ℚ) (n : ℕ) (cpu_percent : ℚ) :
    List ℚ × ℚ :=
  let w := cpu_percentages ++ [cpu_percent]
  let w := if w.length > n then w.drop 1 else w
  (w, round2 (w.sum / w.length))

/-- The arithmetic mean of a list of rationals (`sum(..) / len(..)`). -/
def mean (l : List ℚ) : ℚ := l.sum / l.length

/-- The last `n` entries of a list (all of it when it is shorter than `n`). -/
def lastN (n : ℕ) (l : List ℚ) : List ℚ := l.drop (l.length - n)

/-- Feeding a whole sequence of CPU readings through `collect_cpu_metrics`,
keeping only the evolving window. -/
def cpu_observe_all (win : List ℚ) (n : ℕ) : List ℚ → List ℚ
  | [] => win
  | r :: rs => cpu_observe_all (collect_cpu_metrics win n r).1 n rs

lemma cpu_observe_all_append (win : List ℚ) (n : ℕ) (xs : List ℚ) (x : ℚ) :
    cpu_observe_all win n (xs ++ [x]) =
      (collect_cpu_metrics (cpu_observe_all win n xs) n x).1 := by
  induction xs generalizing win with
  | nil => rfl
  | cons y ys ih => simpa [cpu_observe_all] using ih _

lemma lastN_length (n : ℕ) (l : List ℚ) : (lastN n l).length = min n l.length := by
  simp [lastN]
  omega

lemma collect_cpu_window (win : List ℚ) (n : ℕ) (r : ℚ) :
    (collect_cpu_metrics win n r).1 =
      if (win ++ [r]).length > n then (win ++ [r]).drop 1 else win ++ [r] := rfl

lemma collect_cpu_avg (win : List ℚ) (n : ℕ) (r : ℚ) :
    (collect_cpu_metrics win n r).2 =
      round2 (mean (collect_cpu_metrics win n r).1) := rfl

/-- One observation step carries `lastN n` forward. -/
lemma collect_cpu_lastN_step (n : ℕ) (rs : List ℚ) (r : ℚ) :
    (collect_cpu_metrics (lastN n rs) n r).1 = lastN n (rs ++ [r]) := by
  rw [collect_cpu_window]
  rcases lt_or_le rs.length n with h | h
  · have h0 : rs.length - n = 0 := by omega
    have h1 : rs.length + 1 - n = 0 := by omega
    simp [lastN, h0, h1]
    omega
  · have hwin : (lastN n rs).length = n := by rw [lastN_length]; omega
    have hcond : (lastN n rs ++ [r]).length > n := by simp [hwin]
    rw [if_pos hcond]
    rcases Nat.eq_zero_or_pos n with hn | hn
    · subst hn
      have : lastN 0 rs = [] := by simp [lastN]
      simp [this, lastN]
    · have hdrop : (lastN n rs ++ [r]).drop 1 = (lastN n rs).drop 1 ++ [r] :=
        List.drop_append_of_le_length (by omega)
      rw [hdrop]
      unfold lastN
      have hlen : (rs ++ [r]).length - n = rs.length - n + 1 := by simp; omega
      rw [List.drop_drop, hlen, List.drop_append_of_le_length (by omega)]

/-- Starting from the empty window, the window is always the last `n` readings. -/
lemma cpu_observe_all_eq_lastN (n : ℕ) (rs : List ℚ) :
    cpu_observe_all [] n rs = lastN n rs := by
  induction rs using List.reverseRecOn with
  | nil => simp [cpu_observe_all, lastN]
  | append_singleton xs x ih =>
      rw [cpu_observe_all_append, ih, collect_cpu_lastN_step]

/-- C1: for every sequence of CPU readings fed to `collect_cpu_metrics` with
window capacity `cpu_avg_num = 8`, after each call the window's length never
exceeds `cpu_avg_num`, the window holds exactly the last
`min(cpu_avg_num, count)` readings, and the returned value is the mean of
those readings rounded to 2 decimal places. -/
theorem cpu_smoother_correct (rs : List ℚ) (r : ℚ) :
    ((collect_cpu_metrics (cpu_observe_all [] cpu_avg_num rs) cpu_avg_num r).1).length
        ≤ cpu_avg_num ∧
    ((collect_cpu_metrics (cpu_observe_all [] cpu_avg_num rs) cpu_avg_num r).1).length
        = min cpu_avg_num (rs.length + 1) ∧
    (collect_cpu_metrics (cpu_observe_all [] cpu_avg_num rs) cpu_avg_num r).2
        = round2 (mean (lastN cpu_avg_num (rs ++ [r]))) := by
  have hw : (collect_cpu_metrics (cpu_observe_all [] cpu_avg_num rs) cpu_avg_num r).1
      = lastN cpu_avg_num (rs ++ [r]) := by
    rw [cpu_observe_all_eq_lastN, collect_cpu_lastN_step]
  refine ⟨?_, ?_, ?_⟩
  · rw [hw, lastN_length]; omega
  · rw [hw, lastN_length]; simp
  · rw [collect_cpu_avg, hw]

/-- `collect_gpu_metrics` from `src/monitor.py`: the loads `GPUtil.getGPUs()`
reports are passed in; the first GPU's load is scaled and rounded, `0.0` when
no GPU is present. -/
def collect_gpu_metrics (gpus : List ℚ) : ℚ :=
  match gpus with
  | [] => 0
  | g :: _ => round2 (g * 100)

/-- `collect_ram_metrics` from `src/monitor.py`: the probe value
`psutil.virtual_memory().percent` is passed in and rounded. -/
def collect_ram_metrics (ram_percent : ℚ) : ℚ := round2 ram_percent

/-- `collect_disk_metrics` from `src/monitor.py`.  The cumulative counters
`psutil.disk_io_counters()` reports are passed in as `new_read`/`new_write`;
returns `(read_speed, write_speed, new_read, new_write)`. -/
def collect_disk_metrics (old_read old_write : ℤ) (initial_cycle : Bool)
    (new_read new_write : ℤ) : ℚ × ℚ × ℤ × ℤ :=
  if initial_cycle then
    (0, 0, new_read, new_write)
  else
    (round2 (((new_read - old_read : ℤ) : ℚ) / 1024 / 1024),
     round2 (((new_write - old_write : ℤ) : ℚ) / 1024 / 1024),
     new_read, new_write)

lemma round2_nonpos {q : ℚ} (h : q ≤ 0) : round2 q ≤ 0 := by
  unfold round2
  have h100 : q * 100 ≤ 0 := by nlinarith
  have hfl : round (q * 100) ≤ 0 := by
    rw [round_eq]
    have : (⌊q * 100 + 1 / 2⌋ : ℤ) ≤ ⌊(0 : ℚ) + 1 / 2⌋ :=
      Int.floor_le_floor (by linarith)
    simpa using this
  have : ((round (q * 100) : ℤ) : ℚ) ≤ 0 := by exact_mod_cast hfl
  linarith

/-- C2 counterexample: with the spec's own example (`write` drops from 260 MB
to 10 MB between two non-initial calls), the computed write speed is `-250`,
not `0.0`: `collect_disk_metrics` never clamps a negative delta. -/
theorem disk_clamp_counterexample :
    (10 * 1048576 : ℤ) < 260 * 1048576 ∧
    (collect_disk_metrics (100 * 1048576) (260 * 1048576) false
        (150 * 1048576) (10 * 1048576)).2.1 = -250 ∧
    (collect_disk_metrics (100 * 1048576) (260 * 1048576) false
        (150 * 1048576) (10 * 1048576)).2.1 ≠ 0 ∧
    (collect_disk_metrics (100 * 1048576) (260 * 1048576) false
        (150 * 1048576) (10 * 1048576)).2.1 < 0 := by
  refine ⟨by decide, by decide, by decide, by decide⟩

/-- C2 as amended, per counter: on a non-initial call, whenever a cumulative
counter is strictly lower than the previous one — each direction on its own,
whatever the other counter did — `collect_disk_metrics` does not clamp: the
corresponding computed speed is the rounded non-positive delta
`round((new - old) / 1024 / 1024, 2)`. -/
theorem disk_rate_no_clamp (old_read old_write new_read new_write : ℤ) :
    (new_read < old_read →
      (collect_disk_metrics old_read old_write false new_read new_write).1
          = round2 (((new_read - old_read : ℤ) : ℚ) / 1024 / 1024) ∧
      (collect_disk_metrics old_read old_write false new_read new_write).1 ≤ 0) ∧
    (new_write < old_write →
      (collect_disk_metrics old_read old_write false new_read new_write).2.1
          = round2 (((new_write - old_write : ℤ) : ℚ) / 1024 / 1024) ∧
      (collect_disk_metrics old_read old_write false new_read new_write).2.1 ≤ 0) := by
  constructor
  · intro hr
    refine ⟨rfl, ?_⟩
    apply round2_nonpos
    have h1 : ((new_read - old_read : ℤ) : ℚ) ≤ 0 := by
      have : (new_read - old_read : ℤ) ≤ 0 := by omega
      exact_mod_cast this
    exact div_nonpos_iff.mpr (Or.inr ⟨div_nonpos_iff.mpr (Or.inr ⟨h1, by norm_num⟩),
      by norm_num⟩)
  · intro hw
    refine ⟨rfl, ?_⟩
    apply round2_nonpos
    have h1 : ((new_write - old_write : ℤ) : ℚ) ≤ 0 := by
      have : (new_write - old_write : ℤ) ≤ 0 := by omega
      exact_mod_cast this
    exact div_nonpos_iff.mpr (Or.inr ⟨div_nonpos_iff.mpr (Or.inr ⟨h1, by norm_num⟩),
      by norm_num⟩)

/-- C2 amended, at the counterexample's own one-sided input: read rises
100 MB to 150 MB while write alone drops 260 MB to 10 MB, and the write-side
conclusion applies on its own: the write speed is the rounded negative
delta, not `0.0`. -/
theorem disk_rate_no_clamp_witness :
    (100 * 1048576 : ℤ) < 150 * 1048576 ∧ (10 * 1048576 : ℤ) < 260 * 1048576 ∧
    ((collect_disk_metrics (100 * 1048576) (260 * 1048576) false
        (150 * 1048576) (10 * 1048576)).2.1
      = round2 (((10 * 1048576 - 260 * 1048576 : ℤ) : ℚ) / 1024 / 1024) ∧
    (collect_disk_metrics (100 * 1048576) (260 * 1048576) false
        (150 * 1048576) (10 * 1048576)).2.1 ≤ 0) :=
  ⟨by decide, by decide,
    (disk_rate_no_clamp (100 * 1048576) (260 * 1048576)
      (150 * 1048576) (10 * 1048576)).2 (by decide)⟩

/-- The spec's positive example for the disk rate: cumulative counters
`(100 MB, 200 MB)` then `(150 MB, 260 MB)` yield speeds `(50.0, 60.0)`. -/
theorem disk_rate_positive_example :
    (collect_disk_metrics (100 * 1048576) (200 * 1048576) false
        (150 * 1048576) (260 * 1048576)).1 = 50 ∧
    (collect_disk_metrics (100 * 1048576) (200 * 1048576) false
        (150 * 1048576) (260 * 1048576)).2.1 = 60 := by
  constructor <;> decide

/-! ## The sampling loop of `run_metrics`, its buffer and its database -/

/-- One row of the `metrics` table / one element of `data_buffer`: the tuple
`(timestamp, cpu_percent, gpu_percent, ram_percent, read_speed, write_speed)`
built each tick by `run_metrics`.  Timestamps are abstracted to naturals. -/
structure Sample where
  timestamp : ℕ
  cpu_percent : ℚ
  gpu_percent : ℚ
  ram_percent : ℚ
  read_speed : ℚ
  write_speed : ℚ
deriving DecidableEq, Repr

/-- The external world of one loop iteration: what the OS probes report this
tick, whether they raise (`probe_ok = false` models a fatal OS API error in
one of the `psutil`/`GPUtil` calls), and whether SQLite statements issued
this tick succeed (`write_ok = false` models a storage error). -/
structure TickInput where
  timestamp : ℕ
  probe_ok : Bool
  cpu_raw : ℚ
  gpus : List ℚ
  ram_raw : ℚ
  disk_read : ℤ
  disk_write : ℤ
  write_ok : Bool
deriving DecidableEq, Repr

/-- A SQLite failure surfaced by a cursor call. -/
inductive WriteError where
  | writeError : WriteError
deriving DecidableEq, Repr

/-- The durable store: committed rows are durable, pending rows belong to the
open transaction and are lost unless committed. -/
structure DbState where
  committed : List Sample
  pending : List Sample
deriving DecidableEq, Repr

/-- The SQL statements `write_to_database` issues. -/
inductive SqlOp where
  | begin_txn : SqlOp
  | insert : Sample → SqlOp
  | commit : SqlOp
deriving DecidableEq, Repr

/-- SQLite semantics of one statement: only `commit` moves rows into the
durable `committed` table. -/
def exec_op (st : DbState) : SqlOp → DbState
  | .begin_txn => { st with pending := [] }
  | .insert s => { st with pending := st.pending ++ [s] }
  | .commit => { committed := st.committed ++ st.pending, pending := [] }

/-- Run a statement list; `ok i` says whether the `i`-th statement succeeds.
A failing statement raises: execution stops there and the raised error is
returned beside the state reached. -/
def run_ops (ok : ℕ → Bool) : ℕ → DbState → List SqlOp → DbState × Option WriteError
  | _, st, [] => (st, none)
  | i, st, op :: rest =>
      if ok i then run_ops ok (i + 1) (exec_op st op) rest
      else (st, some WriteError.writeError)

/-- `write_to_database` from `src/monitor.py`: `BEGIN TRANSACTION`, one
`INSERT` per buffered row (`executemany`), then `COMMIT`. -/
def write_to_database (db : DbState) (data_buffer : List Sample) (ok : ℕ → Bool) :
    DbState × Option WriteError :=
  run_ops ok 0 db ([SqlOp.begin_txn] ++ data_buffer.map SqlOp.insert ++ [SqlOp.commit])

lemma run_ops_insert_commit (ok : ℕ → Bool) (batch : List Sample) (i : ℕ) (st : DbState) :
    (run_ops ok i st (batch.map SqlOp.insert ++ [SqlOp.commit])).1.committed =
      if (run_ops ok i st (batch.map SqlOp.insert ++ [SqlOp.commit])).2 = none
      then st.committed ++ st.pending ++ batch
      else st.committed := by
  induction batch generalizing i st with
  | nil =>
      by_cases h : ok i = true <;> simp [run_ops, exec_op, h]
  | cons s rest ih =>
      by_cases h : ok i = true
      · have := ih (i + 1) (exec_op st (SqlOp.insert s))
        simp only [List.map_cons, List.cons_append, run_ops, h, if_true] at *
        simpa [exec_op] using this
      · simp [run_ops, h]

/-- C8: every flush is all-or-nothing.  Whatever statements fail, either the
write reports success and exactly the whole batch was appended to the durable
table, or it reports an error and the durable table is unchanged; no partial
batch is ever persisted. -/
theorem flush_atomic (db : DbState) (batch : List Sample) (ok : ℕ → Bool) :
    (write_to_database db batch ok).1.committed =
      if (write_to_database db batch ok).2 = none
      then db.committed ++ batch
      else db.committed := by
  unfold write_to_database
  by_cases h : ok 0 = true
  · have := run_ops_insert_commit ok batch 1 (exec_op db SqlOp.begin_txn)
    simp only [List.singleton_append, run_ops, h, if_true]
    simpa [exec_op] using this
  · simp [run_ops, h]

/-- A fatal, uncaught exception escaping the `while True` body of
`run_metrics`: a probe raising, or a SQLite statement raising during a
flush.  `run_metrics` has no handler, so either one ends the loop. -/
inductive LoopError where
  | probeError : LoopError
  | writeError : LoopError
deriving DecidableEq, Repr

/-- The probe-side locals of `run_metrics`: the disk counter baseline, the
CPU window, and the first-cycle flag. -/
structure ProbeState where
  old_read : ℤ
  old_write : ℤ
  cpu_percentages : List ℚ
  initial_cycle : Bool
deriving DecidableEq, Repr

/-- The full local state of one `run_metrics` loop, the database connection
included. -/
structure LoopState where
  probe : ProbeState
  data_buffer : List Sample
  db : DbState
  published : Option (Sample × ℤ)
  flush_count : ℕ
deriving DecidableEq, Repr

/-- The state `run_metrics` sets up before entering `while True`. -/
def initState (db : DbState) : LoopState :=
  { probe := { old_read := 0, old_write := 0, cpu_percentages := [], initial_cycle := true },
    data_buffer := [], db := db, published := none, flush_count := 0 }

/-- `update_gui` from `src/monitor.py`: the labels shown to the live viewer,
reduced to what the spec's LiveSink carries — the freshest sample and
`BUFFER_SIZE - len(data_buffer)` (the remaining ticks until the next save). -/
def update_gui (sample : Sample) (data_buffer : List Sample) : Option (Sample × ℤ) :=
  some (sample, (BUFFER_SIZE : ℤ) - data_buffer.length)

/-- The probe-side assignments of one `run_metrics` iteration:
`old_read, old_write` take the counters `collect_disk_metrics` returns, the
CPU window is updated in place by `collect_cpu_metrics`, and
`initial_cycle` is `False` from the first iteration on. -/
def probe_step (p : ProbeState) (inp : TickInput) : ProbeState :=
  { old_read := (collect_disk_metrics p.old_read p.old_write p.initial_cycle
      inp.disk_read inp.disk_write).2.2.1,
    old_write := (collect_disk_metrics p.old_read p.old_write p.initial_cycle
      inp.disk_read inp.disk_write).2.2.2,
    cpu_percentages := (collect_cpu_metrics p.cpu_percentages cpu_avg_num inp.cpu_raw).1,
    initial_cycle := false }

/-- The tuple a (non-initial) `run_metrics` iteration appends to
`data_buffer`: each field is the corresponding `collect_*` result. -/
def tick_sample (p : ProbeState) (inp : TickInput) : Sample :=
  { timestamp := inp.timestamp,
    cpu_percent := (collect_cpu_metrics p.cpu_percentages cpu_avg_num inp.cpu_raw).2,
    gpu_percent := collect_gpu_metrics inp.gpus,
    ram_percent := collect_ram_metrics inp.ram_raw,
    read_speed := (collect_disk_metrics p.old_read p.old_write p.initial_cycle
      inp.disk_read inp.disk_write).1,
    write_speed := (collect_disk_metrics p.old_read p.old_write p.initial_cycle
      inp.disk_read inp.disk_write).2.1 }

/-- One iteration of the `while True` body of `run_metrics`, driven by this
tick's probe readings and failure oracle: collect all metrics; on the
initial cycle just keep the updated baseline and `continue`; otherwise
append the assembled tuple to `data_buffer`, update the GUI, and flush
through `write_to_database` once `len(data_buffer) >= BUFFER_SIZE`. -/
def run_metrics_tick (s : LoopState) (inp : TickInput) : Except LoopError LoopState :=
  if !inp.probe_ok then .error .probeError else
  let p := probe_step s.probe inp
  if s.probe.initial_cycle then
    .ok { s with probe := p }
  else
    let sample := tick_sample s.probe inp
    let buf := s.data_buffer ++ [sample]
    let pub := update_gui sample buf
    if BUFFER_SIZE ≤ buf.length then
      match write_to_database s.db buf (fun _ => inp.write_ok) with
      | (db2, none) =>
          .ok { probe := p, data_buffer := [], db := db2, published := pub,
                flush_count := s.flush_count + 1 }
      | (_, some _) => .error .writeError
    else
      .ok { probe := p, data_buffer := buf, db := s.db, published := pub,
            flush_count := s.flush_count }

/-- The `while True` loop of `run_metrics` over a finite input trace.  An
uncaught exception aborts the whole run: no later tick is attempted. -/
def run_metrics_loop (s : LoopState) : List TickInput → Except LoopError LoopState
  | [] => .ok s
  | inp :: rest =>
      match run_metrics_tick s inp with
      | .ok s2 => run_metrics_loop s2 rest
      | .error e => .error e

/-- The probe-side state after a whole trace. -/
def probe_run (p : ProbeState) : List TickInput → ProbeState
  | [] => p
  | inp :: rest => probe_run (probe_step p inp) rest

/-- The Samples a trace of ticks collects, in collection order. -/
def collected (p : ProbeState) : List TickInput → List Sample
  | [] => []
  | inp :: rest => tick_sample p inp :: collected (probe_step p inp) rest

lemma collected_length (p : ProbeState) (inputs : List TickInput) :
    (collected p inputs).length = inputs.length := by
  induction inputs generalizing p with
  | nil => rfl
  | cons inp rest ih => simp [collected, ih]

/-! ## Characterising one tick of the loop -/

lemma tick_initial (s : LoopState) (inp : TickInput) (hp : inp.probe_ok = true)
    (hi : s.probe.initial_cycle = true) :
    run_metrics_tick s inp = .ok { s with probe := probe_step s.probe inp } := by
  simp [run_metrics_tick, hp, hi]

lemma tick_steady_noflush (s : LoopState) (inp : TickInput) (hp : inp.probe_ok = true)
    (hi : s.probe.initial_cycle = false)
    (hlen : s.data_buffer.length + 1 < BUFFER_SIZE) :
    run_metrics_tick s inp = .ok
      { probe := probe_step s.probe inp,
        data_buffer := s.data_buffer ++ [tick_sample s.probe inp],
        db := s.db,
        published := update_gui (tick_sample s.probe inp)
          (s.data_buffer ++ [tick_sample s.probe inp]),
        flush_count := s.flush_count } := by
  have hc : ¬ BUFFER_SIZE ≤ s.data_buffer.length + 1 := by omega
  simp [run_metrics_tick, hp, hi, hc]

lemma write_all_ok (db : DbState) (batch : List Sample) :
    write_to_database db batch (fun _ => true) =
      ({ committed := db.committed ++ batch, pending := [] }, none) := by
  have key : ∀ (l : List Sample) (i : ℕ) (st : DbState),
      run_ops (fun _ => true) i st (l.map SqlOp.insert ++ [SqlOp.commit]) =
        ({ committed := st.committed ++ st.pending ++ l, pending := [] }, none) := by
    intro l
    induction l with
    | nil => intro i st; simp [run_ops, exec_op]
    | cons x rest ih => intro i st; simp [run_ops, exec_op, ih]
  unfold write_to_database
  simpa [run_ops, exec_op] using key batch 1 { committed := db.committed, pending := [] }

lemma write_all_fail (db : DbState) (batch : List Sample) :
    write_to_database db batch (fun _ => false) = (db, some WriteError.writeError) := by
  simp [write_to_database, run_ops]

lemma tick_steady_flush (s : LoopState) (inp : TickInput) (hp : inp.probe_ok = true)
    (hi : s.probe.initial_cycle = false) (hw : inp.write_ok = true)
    (hlen : BUFFER_SIZE ≤ s.data_buffer.length + 1) :
    run_metrics_tick s inp = .ok
      { probe := probe_step s.probe inp,
        data_buffer := [],
        db := { committed := s.db.committed ++ (s.data_buffer ++ [tick_sample s.probe inp]),
                pending := [] },
        published := update_gui (tick_sample s.probe inp)
          (s.data_buffer ++ [tick_sample s.probe inp]),
        flush_count := s.flush_count + 1 } := by
  have hwrt := write_all_ok s.db (s.data_buffer ++ [tick_sample s.probe inp])
  simp [run_metrics_tick, hp, hi, hw, hlen, hwrt]

lemma tick_steady_flush_fail (s : LoopState) (inp : TickInput) (hp : inp.probe_ok = true)
    (hi : s.probe.initial_cycle = false) (hw : inp.write_ok = false)
    (hlen : BUFFER_SIZE ≤ s.data_buffer.length + 1) :
    run_metrics_tick s inp = .error .writeError := by
  have hwrt := write_all_fail s.db (s.data_buffer ++ [tick_sample s.probe inp])
  simp [run_metrics_tick, hp, hi, hw, hlen, hwrt]

lemma tick_probe_fail (s : LoopState) (inp : TickInput) (hp : inp.probe_ok = false) :
    run_metrics_tick s inp = .error .probeError := by
  simp [run_metrics_tick, hp]

lemma tick_ok_probe_ok {s s2 : LoopState} {inp : TickInput}
    (h : run_metrics_tick s inp = .ok s2) : inp.probe_ok = true := by
  cases hp : inp.probe_ok
  · rw [tick_probe_fail s inp hp] at h
    cases h
  · rfl

lemma tick_ok_write_ok {s s2 : LoopState} {inp : TickInput}
    (h : run_metrics_tick s inp = .ok s2)
    (hi : s.probe.initial_cycle = false)
    (hlen : BUFFER_SIZE ≤ s.data_buffer.length + 1) : inp.write_ok = true := by
  cases hw : inp.write_ok
  · rw [tick_steady_flush_fail s inp (tick_ok_probe_ok h) hi hw hlen] at h
    cases h
  · rfl

/-! ## Multi-tick runs -/

lemma loop_steady_noflush (inputs : List TickInput) (s : LoopState)
    (hi : s.probe.initial_cycle = false)
    (hok : ∀ inp ∈ inputs, inp.probe_ok = true)
    (hlen : s.data_buffer.length + inputs.length < BUFFER_SIZE) :
    ∃ s2, run_metrics_loop s inputs = .ok s2 ∧
      s2.probe = probe_run s.probe inputs ∧
      s2.data_buffer = s.data_buffer ++ collected s.probe inputs ∧
      s2.db = s.db ∧ s2.flush_count = s.flush_count := by
  induction inputs generalizing s with
  | nil => exact ⟨s, rfl, rfl, by simp [collected], rfl, rfl⟩
  | cons inp rest ih =>
      have hp : inp.probe_ok = true := hok inp (by simp)
      have h1 := tick_steady_noflush s inp hp hi (by simp at hlen; omega)
      obtain ⟨s2, hrun, hprobe, hbuf, hdb, hfc⟩ :=
        ih { probe := probe_step s.probe inp,
             data_buffer := s.data_buffer ++ [tick_sample s.probe inp],
             db := s.db,
             published := update_gui (tick_sample s.probe inp)
               (s.data_buffer ++ [tick_sample s.probe inp]),
             flush_count := s.flush_count }
          rfl (fun i hm => hok i (by simp [hm])) (by simp at hlen ⊢; omega)
      refine ⟨s2, ?_, ?_, ?_, ?_, ?_⟩
      · simp only [run_metrics_loop, h1]
        exact hrun
      · exact hprobe
      · rw [hbuf]
        simp [collected, List.append_assoc]
      · exact hdb
      · exact hfc

lemma loop_steady_flush_last (inputs : List TickInput) (s : LoopState)
    (hi : s.probe.initial_cycle = false)
    (hok : ∀ inp ∈ inputs, inp.probe_ok = true ∧ inp.write_ok = true)
    (hne : inputs ≠ [])
    (hlen : s.data_buffer.length + inputs.length = BUFFER_SIZE) :
    ∃ s2, run_metrics_loop s inputs = .ok s2 ∧
      s2.probe = probe_run s.probe inputs ∧
      s2.data_buffer = [] ∧
      s2.flush_count = s.flush_count + 1 ∧
      s2.db.committed = s.db.committed ++ (s.data_buffer ++ collected s.probe inputs) ∧
      s2.db.pending = [] ∧
      (∃ smp, s2.published = some (smp, 0)) := by
  induction inputs generalizing s with
  | nil => exact absurd rfl hne
  | cons inp rest ih =>
      obtain ⟨hp, hw⟩ := hok inp (by simp)
      by_cases hrest : rest = []
      · subst hrest
        have hfull : BUFFER_SIZE ≤ s.data_buffer.length + 1 := by simp at hlen; omega
        have h1 := tick_steady_flush s inp hp hi hw hfull
        refine ⟨{ probe := probe_step s.probe inp,
                  data_buffer := [],
                  db := { committed := s.db.committed ++
                            (s.data_buffer ++ [tick_sample s.probe inp]),
                          pending := [] },
                  published := update_gui (tick_sample s.probe inp)
                    (s.data_buffer ++ [tick_sample s.probe inp]),
                  flush_count := s.flush_count + 1 },
          ?_, rfl, rfl, rfl, ?_, rfl, ⟨tick_sample s.probe inp, ?_⟩⟩
        · simp [run_metrics_loop, h1]
        · simp [collected]
        · simp only [update_gui]
          have hb : (s.data_buffer ++ [tick_sample s.probe inp]).length = BUFFER_SIZE := by
            simp at hlen ⊢
            omega
          rw [hb]
          simp
      · have hnofl : s.data_buffer.length + 1 < BUFFER_SIZE := by
          have : rest.length ≥ 1 := by
            cases rest
            · exact absurd rfl hrest
            · simp
          simp at hlen
          omega
        have h1 := tick_steady_noflush s inp hp hi hnofl
        obtain ⟨s2, hrun, hprobe, hbuf, hfc, hcom, hpen, hpub⟩ :=
          ih { probe := probe_step s.probe inp,
               data_buffer := s.data_buffer ++ [tick_sample s.probe inp],
               db := s.db,
               published := update_gui (tick_sample s.probe inp)
                 (s.data_buffer ++ [tick_sample s.probe inp]),
               flush_count := s.flush_count }
            rfl (fun i hm => hok i (by simp [hm])) hrest (by simp at hlen ⊢; omega)
        refine ⟨s2, ?_, hprobe, hbuf, hfc, ?_, hpen, hpub⟩
        · simp only [run_metrics_loop, h1]
          exact hrun
        · rw [hcom]
          simp [collected, List.append_assoc]

/-! ## The buffer-length invariant over reachable states -/

/-- A state of the sampling loop reachable from the start of `run_metrics`
by some finite input trace. -/
def Reachable (s : LoopState) : Prop :=
  ∃ (db : DbState) (inputs : List TickInput),
    run_metrics_loop (initState db) inputs = Except.ok s

lemma tick_buffer_lt {s s2 : LoopState} {inp : TickInput}
    (h : run_metrics_tick s inp = .ok s2)
    (hs : s.data_buffer.length < BUFFER_SIZE) :
    s2.data_buffer.length < BUFFER_SIZE := by
  have hp := tick_ok_probe_ok h
  cases hi : s.probe.initial_cycle
  · by_cases hfull : BUFFER_SIZE ≤ s.data_buffer.length + 1
    · have hw := tick_ok_write_ok h hi hfull
      rw [tick_steady_flush s inp hp hi hw hfull] at h
      cases h
      simp [BUFFER_SIZE]
    · rw [tick_steady_noflush s inp hp hi (by omega)] at h
      cases h
      simp
      omega
  · rw [tick_initial s inp hp hi] at h
    cases h
    exact hs

lemma loop_buffer_lt :
    ∀ (inputs : List TickInput) (s s2 : LoopState),
      s.data_buffer.length < BUFFER_SIZE →
      run_metrics_loop s inputs = Except.ok s2 →
      s2.data_buffer.length < BUFFER_SIZE := by
  intro inputs
  induction inputs with
  | nil =>
      intro s s2 hs h
      cases h
      exact hs
  | cons inp rest ih =>
      intro s s2 hs h
      rw [run_metrics_loop] at h
      cases htick : run_metrics_tick s inp with
      | error e => rw [htick] at h; cases h
      | ok s1 =>
          rw [htick] at h
          exact ih s1 s2 (tick_buffer_lt htick hs) h

lemma reachable_buffer_lt {s : LoopState} (h : Reachable s) :
    s.data_buffer.length < BUFFER_SIZE := by
  obtain ⟨db, inputs, hrun⟩ := h
  exact loop_buffer_lt inputs (initState db) s (by simp [initState, BUFFER_SIZE]) hrun

/-! ## Concrete fixtures used by witnesses and counterexamples -/

/-- An empty durable store. -/
def sampleDb : DbState := { committed := [], pending := [] }

/-- A healthy tick whose probes all read zero. -/
def baseInput : TickInput :=
  { timestamp := 0, probe_ok := true, cpu_raw := 0, gpus := [], ram_raw := 0,
    disk_read := 0, disk_write := 0, write_ok := true }

/-- The Sample a zero-reading tick assembles. -/
def zeroSample : Sample :=
  { timestamp := 0, cpu_percent := 0, gpu_percent := 0, ram_percent := 0,
    read_speed := 0, write_speed := 0 }

/-- First synthetic tick of the C3 witness: counters at (100 MB, 200 MB). -/
def c3Inp1 : TickInput :=
  { baseInput with disk_read := 100 * 1048576, disk_write := 200 * 1048576 }

/-- Second synthetic tick of the C3 witness: counters at (150 MB, 260 MB). -/
def c3Inp2 : TickInput :=
  { baseInput with timestamp := 1, disk_read := 150 * 1048576, disk_write := 260 * 1048576 }

/-! ## C3: the baseline tick -/

/-- The loop state after the baseline tick: counters stored, CPU window
seeded, `initial_cycle` cleared; nothing buffered, published or flushed. -/
def afterBaseline (db : DbState) (inp1 : TickInput) : LoopState :=
  { probe := probe_step (initState db).probe inp1,
    data_buffer := [], db := db, published := none, flush_count := 0 }

/-- C3: on the very first tick the disk calculator returns zero speeds and
only stores the current counters as baseline; `run_metrics` appends nothing
to the buffer and publishes nothing on that tick; on the second tick the one
buffered Sample carries speeds computed from the delta between the counters
of calls 1 and 2, divided by 1024*1024 and rounded to 2 decimals. -/
theorem disk_baseline_first_tick (db : DbState) (inp1 inp2 : TickInput)
    (h1 : inp1.probe_ok = true) (h2 : inp2.probe_ok = true) :
    (collect_disk_metrics (initState db).probe.old_read (initState db).probe.old_write
        (initState db).probe.initial_cycle inp1.disk_read inp1.disk_write).1 = 0 ∧
    (collect_disk_metrics (initState db).probe.old_read (initState db).probe.old_write
        (initState db).probe.initial_cycle inp1.disk_read inp1.disk_write).2.1 = 0 ∧
    run_metrics_tick (initState db) inp1 = .ok (afterBaseline db inp1) ∧
    (afterBaseline db inp1).probe.old_read = inp1.disk_read ∧
    (afterBaseline db inp1).probe.old_write = inp1.disk_write ∧
    (afterBaseline db inp1).data_buffer = [] ∧
    (afterBaseline db inp1).published = none ∧
    (afterBaseline db inp1).db = db ∧
    (∃ s2, run_metrics_loop (initState db) [inp1, inp2] = .ok s2 ∧
      s2.data_buffer = [tick_sample (afterBaseline db inp1).probe inp2] ∧
      (tick_sample (afterBaseline db inp1).probe inp2).read_speed
        = round2 (((inp2.disk_read - inp1.disk_read : ℤ) : ℚ) / 1024 / 1024) ∧
      (tick_sample (afterBaseline db inp1).probe inp2).write_speed
        = round2 (((inp2.disk_write - inp1.disk_write : ℤ) : ℚ) / 1024 / 1024)) := by
  have htick1 : run_metrics_tick (initState db) inp1 = .ok (afterBaseline db inp1) := by
    rw [tick_initial (initState db) inp1 h1 rfl]
    rfl
  have htick2 := tick_steady_noflush (afterBaseline db inp1) inp2 h2 rfl
    (by simp [afterBaseline, BUFFER_SIZE])
  refine ⟨rfl, rfl, htick1, rfl, rfl, rfl, rfl, rfl, ?_⟩
  refine ⟨{ probe := probe_step (afterBaseline db inp1).probe inp2,
            data_buffer := (afterBaseline db inp1).data_buffer ++
              [tick_sample (afterBaseline db inp1).probe inp2],
            db := (afterBaseline db inp1).db,
            published := update_gui (tick_sample (afterBaseline db inp1).probe inp2)
              ((afterBaseline db inp1).data_buffer ++
                [tick_sample (afterBaseline db inp1).probe inp2]),
            flush_count := (afterBaseline db inp1).flush_count },
    ?_, ?_, rfl, rfl⟩
  · simp only [run_metrics_loop, htick1, htick2]
  · simp [afterBaseline]

/-- C3 witness: the baseline behaviour at the spec's concrete counters
(100 MB, 200 MB) then (150 MB, 260 MB). -/
theorem disk_baseline_first_tick_witness :
    c3Inp1.probe_ok = true ∧ c3Inp2.probe_ok = true ∧
    ((collect_disk_metrics (initState sampleDb).probe.old_read (initState sampleDb).probe.old_write
        (initState sampleDb).probe.initial_cycle c3Inp1.disk_read c3Inp1.disk_write).1 = 0 ∧
    (collect_disk_metrics (initState sampleDb).probe.old_read (initState sampleDb).probe.old_write
        (initState sampleDb).probe.initial_cycle c3Inp1.disk_read c3Inp1.disk_write).2.1 = 0 ∧
    run_metrics_tick (initState sampleDb) c3Inp1 = .ok (afterBaseline sampleDb c3Inp1) ∧
    (afterBaseline sampleDb c3Inp1).probe.old_read = c3Inp1.disk_read ∧
    (afterBaseline sampleDb c3Inp1).probe.old_write = c3Inp1.disk_write ∧
    (afterBaseline sampleDb c3Inp1).data_buffer = [] ∧
    (afterBaseline sampleDb c3Inp1).published = none ∧
    (afterBaseline sampleDb c3Inp1).db = sampleDb ∧
    (∃ s2, run_metrics_loop (initState sampleDb) [c3Inp1, c3Inp2] = .ok s2 ∧
      s2.data_buffer = [tick_sample (afterBaseline sampleDb c3Inp1).probe c3Inp2] ∧
      (tick_sample (afterBaseline sampleDb c3Inp1).probe c3Inp2).read_speed
        = round2 (((c3Inp2.disk_read - c3Inp1.disk_read : ℤ) : ℚ) / 1024 / 1024) ∧
      (tick_sample (afterBaseline sampleDb c3Inp1).probe c3Inp2).write_speed
        = round2 (((c3Inp2.disk_write - c3Inp1.disk_write : ℤ) : ℚ) / 1024 / 1024))) :=
  ⟨rfl, rfl, disk_baseline_first_tick sampleDb c3Inp1 c3Inp2 rfl rfl⟩

/-! ## C4: filling the buffer triggers exactly one whole-batch flush -/

/-- C4: from an empty buffer in steady state, `BUFFER_SIZE` healthy ticks
append exactly `BUFFER_SIZE` samples and trigger exactly one flush, whose
batch is exactly those samples in collection order, leaving the buffer empty
immediately after. -/
theorem buffer_flush_on_capacity (s : LoopState) (inputs : List TickInput)
    (hi : s.probe.initial_cycle = false)
    (hbuf : s.data_buffer = [])
    (hok : ∀ inp ∈ inputs, inp.probe_ok = true ∧ inp.write_ok = true)
    (hlen : inputs.length = BUFFER_SIZE) :
    ∃ s2, run_metrics_loop s inputs = .ok s2 ∧
      s2.flush_count = s.flush_count + 1 ∧
      s2.db.committed = s.db.committed ++ collected s.probe inputs ∧
      (collected s.probe inputs).length = BUFFER_SIZE ∧
      s2.data_buffer = [] := by
  obtain ⟨s2, hrun, _, hbuf2, hfc, hcom, _, _⟩ :=
    loop_steady_flush_last inputs s hi hok
      (by intro h; rw [h] at hlen; simp [BUFFER_SIZE] at hlen)
      (by rw [hbuf]; simpa using hlen)
  refine ⟨s2, hrun, hfc, ?_, ?_, hbuf2⟩
  · rw [hcom, hbuf]
    simp
  · rw [collected_length]
    exact hlen

/-- A steady-state loop state with an empty buffer, used by witnesses. -/
def steadyState : LoopState :=
  { probe := { old_read := 0, old_write := 0, cpu_percentages := [], initial_cycle := false },
    data_buffer := [], db := sampleDb, published := none, flush_count := 0 }

/-- C4 witness: sixty healthy zero-reading ticks from the steady state. -/
theorem buffer_flush_on_capacity_witness :
    steadyState.probe.initial_cycle = false ∧
    steadyState.data_buffer = [] ∧
    (∀ inp ∈ List.replicate BUFFER_SIZE baseInput,
      inp.probe_ok = true ∧ inp.write_ok = true) ∧
    (List.replicate BUFFER_SIZE baseInput).length = BUFFER_SIZE ∧
    (∃ s2, run_metrics_loop steadyState (List.replicate BUFFER_SIZE baseInput) = .ok s2 ∧
      s2.flush_count = steadyState.flush_count + 1 ∧
      s2.db.committed = steadyState.db.committed ++
        collected steadyState.probe (List.replicate BUFFER_SIZE baseInput) ∧
      (collected steadyState.probe (List.replicate BUFFER_SIZE baseInput)).length
        = BUFFER_SIZE ∧
      s2.data_buffer = []) :=
  ⟨rfl, rfl,
    fun inp hm => by rw [List.eq_of_mem_replicate hm]; exact ⟨rfl, rfl⟩,
    by simp,
    buffer_flush_on_capacity steadyState (List.replicate BUFFER_SIZE baseInput) rfl rfl
      (fun inp hm => by rw [List.eq_of_mem_replicate hm]; exact ⟨rfl, rfl⟩)
      (by simp)⟩

/-! ## C5: the buffer-length/flush invariant -/

/-- C5: in every reachable state the buffer never exceeds `BUFFER_SIZE`
(before and after any successful tick); a tick increments the flush counter
exactly when it is a non-baseline tick whose append fills the buffer to
exactly `BUFFER_SIZE`; a flush empties the buffer and commits the whole
batch in one step; and a non-flushing tick either leaves the buffer alone
(baseline tick) or appends exactly one sample with the store untouched — so
the buffer is never partially cleared. -/
theorem buffer_invariant (s s2 : LoopState) (inp : TickInput)
    (hreach : Reachable s)
    (htick : run_metrics_tick s inp = .ok s2) :
    s.data_buffer.length ≤ BUFFER_SIZE ∧
    s2.data_buffer.length ≤ BUFFER_SIZE ∧
    ((s2.flush_count = s.flush_count + 1) ↔
      (s.probe.initial_cycle = false ∧ s.data_buffer.length + 1 = BUFFER_SIZE)) ∧
    (s2.flush_count = s.flush_count + 1 →
      s2.data_buffer = [] ∧
      s2.db.committed = s.db.committed ++ (s.data_buffer ++ [tick_sample s.probe inp])) ∧
    (s2.flush_count = s.flush_count →
      (s.probe.initial_cycle = true ∧ s2.data_buffer = s.data_buffer ∧ s2.db = s.db) ∨
      (s.probe.initial_cycle = false ∧
        s2.data_buffer = s.data_buffer ++ [tick_sample s.probe inp] ∧
        s2.db = s.db)) := by
  have hlt := reachable_buffer_lt hreach
  have hp := tick_ok_probe_ok htick
  cases hi : s.probe.initial_cycle
  · by_cases hfull : BUFFER_SIZE ≤ s.data_buffer.length + 1
    · have hw := tick_ok_write_ok htick hi hfull
      rw [tick_steady_flush s inp hp hi hw hfull] at htick
      cases htick
      refine ⟨le_of_lt hlt, ?_, ⟨?_, ?_⟩, ?_, ?_⟩
      · show ([] : List Sample).length ≤ BUFFER_SIZE
        simp
      · intro _
        exact ⟨rfl, by omega⟩
      · intro _
        show s.flush_count + 1 = s.flush_count + 1
        rfl
      · intro _
        exact ⟨rfl, rfl⟩
      · intro hc
        exact absurd (show s.flush_count + 1 = s.flush_count from hc) (by omega)
    · rw [tick_steady_noflush s inp hp hi (by omega)] at htick
      cases htick
      refine ⟨le_of_lt hlt, ?_, ⟨?_, ?_⟩, ?_, ?_⟩
      · show (s.data_buffer ++ [tick_sample s.probe inp]).length ≤ BUFFER_SIZE
        simp
        omega
      · intro hc
        exact absurd (show s.flush_count = s.flush_count + 1 from hc) (by omega)
      · intro hr
        exact absurd hr.2 (by omega)
      · intro hc
        exact absurd (show s.flush_count = s.flush_count + 1 from hc) (by omega)
      · intro _
        exact Or.inr ⟨rfl, rfl, rfl⟩
  · rw [tick_initial s inp hp hi] at htick
    cases htick
    refine ⟨le_of_lt hlt, le_of_lt hlt, ⟨?_, ?_⟩, ?_, ?_⟩
    · intro hc
      exact absurd (show s.flush_count = s.flush_count + 1 from hc) (by omega)
    · intro hr
      exact absurd hr.1 (by simp)
    · intro hc
      exact absurd (show s.flush_count = s.flush_count + 1 from hc) (by omega)
    · intro _
      exact Or.inl ⟨rfl, rfl, rfl⟩

/-- The state the baseline tick of the C5 witness reaches. -/
def c5Next : LoopState :=
  { initState sampleDb with probe := probe_step (initState sampleDb).probe baseInput }

/-- C5 witness: the freshly initialised state is reachable (empty trace) and
its baseline tick on a healthy zero-reading input satisfies the invariant. -/
theorem buffer_invariant_witness :
    Reachable (initState sampleDb) ∧
    run_metrics_tick (initState sampleDb) baseInput = .ok c5Next ∧
    ((initState sampleDb).data_buffer.length ≤ BUFFER_SIZE ∧
    c5Next.data_buffer.length ≤ BUFFER_SIZE ∧
    ((c5Next.flush_count = (initState sampleDb).flush_count + 1) ↔
      ((initState sampleDb).probe.initial_cycle = false ∧
        (initState sampleDb).data_buffer.length + 1 = BUFFER_SIZE)) ∧
    (c5Next.flush_count = (initState sampleDb).flush_count + 1 →
      c5Next.data_buffer = [] ∧
      c5Next.db.committed = (initState sampleDb).db.committed ++
        ((initState sampleDb).data_buffer ++
          [tick_sample (initState sampleDb).probe baseInput])) ∧
    (c5Next.flush_count = (initState sampleDb).flush_count →
      ((initState sampleDb).probe.initial_cycle = true ∧
        c5Next.data_buffer = (initState sampleDb).data_buffer ∧
        c5Next.db = (initState sampleDb).db) ∨
      ((initState sampleDb).probe.initial_cycle = false ∧
        c5Next.data_buffer = (initState sampleDb).data_buffer ++
          [tick_sample (initState sampleDb).probe baseInput] ∧
        c5Next.db = (initState sampleDb).db))) :=
  have hreach : Reachable (initState sampleDb) := ⟨sampleDb, [], rfl⟩
  have htick : run_metrics_tick (initState sampleDb) baseInput = .ok c5Next :=
    tick_initial (initState sampleDb) baseInput rfl rfl
  ⟨hreach, htick, buffer_invariant (initState sampleDb) c5Next baseInput hreach htick⟩

/-! ## C6: a failed flush kills the loop -/

/-- A tick whose SQLite statements fail. -/
def failWriteInput : TickInput := { baseInput with write_ok := false }

set_option maxRecDepth 10000 in
/-- C6 counterexample: 60 healthy ticks (first = baseline) fill the buffer,
the 61st tick's flush hits a storage error, and the uncaught exception ends
the run; with a further healthy tick appended the run still ends in the same
error.  The loop does not keep running, never accepts the subsequent tick,
and nothing is retried or discarded by a surviving loop. -/
theorem flush_failure_kills_loop_cex :
    run_metrics_loop (initState sampleDb)
        (List.replicate BUFFER_SIZE baseInput ++ [failWriteInput]) =
      Except.error LoopError.writeError ∧
    run_metrics_loop (initState sampleDb)
        (List.replicate BUFFER_SIZE baseInput ++ [failWriteInput, baseInput]) =
      Except.error LoopError.writeError :=
  ⟨rfl, rfl⟩

/-- C6 as amended: when the flush raises, the storage error propagates out of
`run_metrics`: the loop terminates with the write error and processes no
further tick, however many inputs remain; the durable store is unchanged by
the failed flush.  There is no retry and no drop-and-continue — the loop
itself dies with the buffer still below `BUFFER_SIZE + 1` entries. -/
theorem flush_failure_propagates (s : LoopState) (inp : TickInput)
    (rest : List TickInput)
    (hi : s.probe.initial_cycle = false) (hp : inp.probe_ok = true)
    (hw : inp.write_ok = false)
    (hlen : BUFFER_SIZE ≤ s.data_buffer.length + 1) :
    run_metrics_loop s (inp :: rest) = Except.error LoopError.writeError ∧
    (write_to_database s.db (s.data_buffer ++ [tick_sample s.probe inp])
      (fun _ => inp.write_ok)).1 = s.db := by
  constructor
  · simp only [run_metrics_loop, tick_steady_flush_fail s inp hp hi hw hlen]
  · rw [hw, write_all_fail]

/-- A steady state whose buffer already holds 59 samples. -/
def full59State : LoopState :=
  { probe := { old_read := 0, old_write := 0, cpu_percentages := [], initial_cycle := false },
    data_buffer := List.replicate 59 zeroSample,
    db := sampleDb, published := none, flush_count := 0 }

/-- C6 amended, at a concrete state: a buffer of 59 samples, one failing
tick, one healthy tick behind it that is never reached. -/
theorem flush_failure_propagates_witness :
    full59State.probe.initial_cycle = false ∧
    failWriteInput.probe_ok = true ∧
    failWriteInput.write_ok = false ∧
    BUFFER_SIZE ≤ full59State.data_buffer.length + 1 ∧
    (run_metrics_loop full59State (failWriteInput :: [baseInput]) =
        Except.error LoopError.writeError ∧
     (write_to_database full59State.db
        (full59State.data_buffer ++ [tick_sample full59State.probe failWriteInput])
        (fun _ => failWriteInput.write_ok)).1 = full59State.db) :=
  ⟨rfl, rfl, rfl, by decide,
    flush_failure_propagates full59State failWriteInput [baseInput] rfl rfl rfl
      (by decide)⟩

/-! ## C7: a failed probe kills the loop -/

/-- A tick whose OS probe raises a fatal error. -/
def failProbeInput : TickInput := { baseInput with probe_ok := false }

/-- C7 counterexample: a healthy baseline tick, then a tick whose OS probe
raises: the uncaught exception ends the whole run and the third, healthy,
tick is never attempted — the loop does not survive to the next tick. -/
theorem probe_failure_kills_loop_cex :
    run_metrics_loop (initState sampleDb) [baseInput, failProbeInput, baseInput] =
      Except.error LoopError.probeError :=
  rfl

/-- C7 as amended: a fatal probe failure does not terminate only the current
tick — the exception propagates out of the `while True` loop, which
terminates at once and never attempts any of the remaining ticks. -/
theorem probe_failure_propagates (s : LoopState) (inp : TickInput)
    (rest : List TickInput) (hp : inp.probe_ok = false) :
    run_metrics_loop s (inp :: rest) = Except.error LoopError.probeError := by
  simp only [run_metrics_loop, tick_probe_fail s inp hp]

/-- C7 amended, at a concrete state: one failing probe, one healthy tick
behind it that is never reached. -/
theorem probe_failure_propagates_witness :
    failProbeInput.probe_ok = false ∧
    run_metrics_loop (initState sampleDb) (failProbeInput :: [baseInput]) =
      Except.error LoopError.probeError :=
  ⟨rfl, probe_failure_propagates (initState sampleDb) failProbeInput [baseInput] rfl⟩

/-! ## C9: the 61-tick end-to-end run -/

set_option maxRecDepth 10000 in
/-- C9 counterexample: running 61 synthetic zero-reading ticks from a fresh
start, the flush completes (one flush, 60 rows, empty buffer) but the fill
level published on the 61st tick is `0` remaining — 60 of 60 for the batch
being flushed, since `update_gui` runs before the flush — not the
`BUFFER_SIZE - 1 = 59` remaining that "1 of 60 for the newly started batch"
would show. -/
theorem fill_level_61st_tick_cex :
    (run_metrics_loop (initState sampleDb)
        (List.replicate (BUFFER_SIZE + 1) baseInput)).map
      (fun s => (s.flush_count, s.db.committed.length, s.data_buffer, s.published)) =
      Except.ok (1, BUFFER_SIZE, ([] : List Sample), some (zeroSample, (0 : ℤ))) ∧
    some (zeroSample, (0 : ℤ)) ≠ some (zeroSample, (BUFFER_SIZE : ℤ) - 1) := by
  constructor
  · rfl
  · decide

/-- C9 as amended: from a fresh start, 61 healthy ticks (the first being the
baseline) produce exactly one completed flush of exactly `BUFFER_SIZE`
persisted rows after the 61st tick; the fill level published on the 61st
tick is 0-remaining (60 of 60) for the batch being flushed — `update_gui`
runs before the flush check — and the buffer is empty after the tick. -/
theorem end_to_end_61_ticks (db : DbState) (inputs : List TickInput)
    (hlen : inputs.length = BUFFER_SIZE + 1)
    (hok : ∀ inp ∈ inputs, inp.probe_ok = true ∧ inp.write_ok = true) :
    ∃ s2, run_metrics_loop (initState db) inputs = .ok s2 ∧
      s2.flush_count = 1 ∧
      s2.db.committed.length = db.committed.length + BUFFER_SIZE ∧
      s2.data_buffer = [] ∧
      (∃ smp, s2.published = some (smp, 0)) := by
  cases inputs with
  | nil => simp [BUFFER_SIZE] at hlen
  | cons inp1 rest =>
      have hp1 := (hok inp1 (by simp)).1
      have htick1 : run_metrics_tick (initState db) inp1 = .ok (afterBaseline db inp1) := by
        rw [tick_initial (initState db) inp1 hp1 rfl]
        rfl
      have hrlen : rest.length = BUFFER_SIZE := by simp at hlen; omega
      obtain ⟨s2, hrun, _, hbuf, hfc, hcom, _, hpub⟩ :=
        loop_steady_flush_last rest (afterBaseline db inp1) rfl
          (fun i hm => hok i (by simp [hm]))
          (by intro h; rw [h] at hrlen; simp [BUFFER_SIZE] at hrlen)
          (by simpa [afterBaseline] using hrlen)
      refine ⟨s2, ?_, ?_, ?_, hbuf, hpub⟩
      · simp only [run_metrics_loop, htick1]
        exact hrun
      · rw [hfc]
        rfl
      · rw [hcom]
        simp [afterBaseline, collected_length, hrlen]

/-- C9 amended, at the 61 concrete zero-reading ticks. -/
theorem end_to_end_61_ticks_witness :
    (List.replicate (BUFFER_SIZE + 1) baseInput).length = BUFFER_SIZE + 1 ∧
    (∀ inp ∈ List.replicate (BUFFER_SIZE + 1) baseInput,
      inp.probe_ok = true ∧ inp.write_ok = true) ∧
    (∃ s2, run_metrics_loop (initState sampleDb)
        (List.replicate (BUFFER_SIZE + 1) baseInput) = .ok s2 ∧
      s2.flush_count = 1 ∧
      s2.db.committed.length = sampleDb.committed.length + BUFFER_SIZE ∧
      s2.data_buffer = [] ∧
      (∃ smp, s2.published = some (smp, 0))) :=
  ⟨by simp, fun inp hm => by rw [List.eq_of_mem_replicate hm]; exact ⟨rfl, rfl⟩,
    end_to_end_61_ticks sampleDb (List.replicate (BUFFER_SIZE + 1) baseInput) (by simp)
      (fun inp hm => by rw [List.eq_of_mem_replicate hm]; exact ⟨rfl, rfl⟩)⟩

/-! ## C10: the query-side time filter of `src/analyzer.py` -/

/-- `UnboundLocalError`: `past_time` referenced before assignment. -/
inductive PyError where
  | unboundLocalError : PyError
deriving DecidableEq, Repr

/-- `filter_time` from `src/analyzer.py`.  The DataFrame is a list of rows
indexed by timestamps (in seconds); `now` is `datetime.now()`.  The
`if/elif` chain sets the lower bound for the three relative periods
(`timedelta` of one hour, day, week), returns the frame unchanged for
"All", and for any other string reaches `df[df.index >= past_time]` with
`past_time` never assigned, raising `UnboundLocalError`. -/
def filter_time (df : List (ℤ × Sample)) (now : ℤ) (time_period : String) :
    Except PyError (List (ℤ × Sample)) :=
  if time_period = "Last Hour" then
    .ok (df.filter (fun row => decide (now - 3600 ≤ row.1)))
  else if time_period = "Last Day" then
    .ok (df.filter (fun row => decide (now - 86400 ≤ row.1)))
  else if time_period = "Last Week" then
    .ok (df.filter (fun row => decide (now - 604800 ≤ row.1)))
  else if time_period = "All" then
    .ok df
  else
    .error .unboundLocalError

/-- C10: the four period strings are total — "All" returns the frame
unchanged and the three relative periods keep exactly the rows at or after
the corresponding lower bound — while every other string raises
(`past_time` referenced before assignment) instead of returning a frame. -/
theorem filter_time_total_or_raises (df : List (ℤ × Sample)) (now : ℤ) (p : String)
    (hp : p ≠ "Last Hour" ∧ p ≠ "Last Day" ∧ p ≠ "Last Week" ∧ p ≠ "All") :
    filter_time df now "All" = .ok df ∧
    filter_time df now "Last Hour"
      = .ok (df.filter (fun row => decide (now - 3600 ≤ row.1))) ∧
    filter_time df now "Last Day"
      = .ok (df.filter (fun row => decide (now - 86400 ≤ row.1))) ∧
    filter_time df now "Last Week"
      = .ok (df.filter (fun row => decide (now - 604800 ≤ row.1))) ∧
    (∀ row, row ∈ df.filter (fun row => decide (now - 3600 ≤ row.1))
      ↔ row ∈ df ∧ now - 3600 ≤ row.1) ∧
    filter_time df now p = .error PyError.unboundLocalError := by
  obtain ⟨h1, h2, h3, h4⟩ := hp
  refine ⟨rfl, rfl, rfl, rfl, ?_, ?_⟩
  · intro row
    simp [List.mem_filter]
  · simp [filter_time, h1, h2, h3, h4]

/-- C10, at a concrete frame, time and unknown period string. -/
theorem filter_time_total_or_raises_witness :
    (("Yesterday" : String) ≠ "Last Hour" ∧ ("Yesterday" : String) ≠ "Last Day" ∧
      ("Yesterday" : String) ≠ "Last Week" ∧ ("Yesterday" : String) ≠ "All") ∧
    (filter_time [((0 : ℤ), zeroSample)] 10000 "All" = .ok [((0 : ℤ), zeroSample)] ∧
    filter_time [((0 : ℤ), zeroSample)] 10000 "Last Hour"
      = .ok (([((0 : ℤ), zeroSample)]).filter
          (fun row => decide ((10000 : ℤ) - 3600 ≤ row.1))) ∧
    filter_time [((0 : ℤ), zeroSample)] 10000 "Last Day"
      = .ok (([((0 : ℤ), zeroSample)]).filter
          (fun row => decide ((10000 : ℤ) - 86400 ≤ row.1))) ∧
    filter_time [((0 : ℤ), zeroSample)] 10000 "Last Week"
      = .ok (([((0 : ℤ), zeroSample)]).filter
          (fun row => decide ((10000 : ℤ) - 604800 ≤ row.1))) ∧
    (∀ row, row ∈ ([((0 : ℤ), zeroSample)]).filter
        (fun row => decide ((10000 : ℤ) - 3600 ≤ row.1))
      ↔ row ∈ [((0 : ℤ), zeroSample)] ∧ (10000 : ℤ) - 3600 ≤ row.1) ∧
    filter_time [((0 : ℤ), zeroSample)] 10000 "Yesterday"
      = .error PyError.unboundLocalError) :=
  ⟨⟨by decide, by decide, by decide, by decide⟩,
    filter_time_total_or_raises [((0 : ℤ), zeroSample)] 10000 "Yesterday"
      ⟨by decide, by decide, by decide, by decide⟩⟩

end SystemMonitorVerification
